import Mathlib

/-!
Verification of the risk scoring engine of the ZRA Digital Fortress
repository: a shallow embedding of
`src/ai_engine/ml_models/fraud_detector.py` (the rule-based analyzer) and
`src/ai_engine/ml_models/advanced_fraud_detector.py` (the feature
extractor and the ensemble combiner), with theorems checking the
specification's claims about them.

Conventions of the embedding:
* Python numbers are modelled as `ℚ` (the scoring path uses only +, -, *,
  /, comparisons and `%`-divisibility, all exact on the inputs involved).
* The duck-typed filing dictionary is modelled by `Filing` whose numeric
  fields hold a dynamic `PyVal` (a number or a string); an absent key is
  `none` and `dict.get` with a default is `Option.getD`.  Operations that
  raise `TypeError`/`ZeroDivisionError` in Python are modelled in the
  `Except String` monad; the `try/except` of `FraudDetector.analyze` is
  the `match` in `analyze` below.
* Python's `x % m == 0` on the (integral-valued) amounts holds exactly
  when `x` is an integer multiple of `m`, i.e. when `x / m` has
  denominator 1.
* `f"..."` number formatting is rendered by `fmtQ` (numerator/denominator
  instead of decimal notation); no claim depends on the digits of a
  rendered number, only on which literal template is chosen.
* `np.log1p` is transcendental, so the feature extractor is parameterised
  by the function `L` applied to income and deductions (`log(1+x)` in the
  source); every claim about the extractor is proved for all `L`.
* `sklearn`'s trained classifier is outside the repository's code; the
  ensemble combiner `ensemble_predict` therefore takes the result of
  `AdvancedFraudDetector.predict` as its `ml_result` argument, with
  `predictDegraded` the exact dictionary built by `predict`'s `except`
  branch (lines 198-206).
-/

namespace ZRA

/- Batteries marks the `Rat` arithmetic operations `@[irreducible]` (a
performance guard for definitional unification, not a soundness device);
within this development they are restored to their default transparency so
that `decide` can evaluate the embedded engine on concrete filings.  This
changes nothing about what the definitions compute. -/
attribute [local semireducible] Rat.mul Rat.inv Rat.add Rat.sub Rat.ofScientific

/-- A dynamic (duck-typed) Python value stored in a filing field: the
scoring path only ever meets numbers and strings. -/
inductive PyVal where
  | num (q : ℚ)
  | str (s : String)
deriving DecidableEq

/-- The filing dictionary: `income`, `deductions`, `business_sector`,
`tax_period`; a missing key is `none`. -/
structure Filing where
  income : Option PyVal := none
  deductions : Option PyVal := none
  business_sector : Option String := none
  tax_period : Option String := none
deriving DecidableEq

/-- Python `a > b`: defined on two numbers, `TypeError` otherwise. -/
def pyGT : PyVal → PyVal → Except String Bool
  | .num x, .num y => .ok (decide (x > y))
  | _, _ => .error "TypeError: comparison between str and number"

/-- Python `a / b` on filing values. -/
def pyDiv : PyVal → PyVal → Except String ℚ
  | .num x, .num y => if y = 0 then .error "ZeroDivisionError" else .ok (x / y)
  | _, _ => .error "TypeError: division on str"

/-- Python `a - b` on filing values. -/
def pySub : PyVal → PyVal → Except String ℚ
  | .num x, .num y => .ok (x - y)
  | _, _ => .error "TypeError: subtraction on str"

/-- A number where Python arithmetic needs one. -/
def pyNum : PyVal → Except String ℚ
  | .num x => .ok x
  | .str _ => .error "TypeError: str where a number is required"

/-- Whether `pat` occurs as a contiguous run inside `s`. -/
def containsSub (pat : List Char) : List Char → Bool
  | [] => pat.isEmpty
  | c :: cs => pat.isPrefixOf (c :: cs) || containsSub pat cs

/-- Python's `pat in s` substring test. -/
def strContains (s pat : String) : Bool :=
  containsSub pat.toList s.toList

/-- Python's `str.lower()` on the labels the engine meets: character-wise
ASCII lowercasing (what `.lower()` does on this data), implemented by
structural recursion so that it evaluates inside proofs. -/
def pyLower (s : String) : String :=
  String.mk (s.toList.map Char.toLower)

/-- Rendering of a rational in a message (stands in for Python's f-string
number formatting; only the surrounding template text matters to any
claim). -/
def fmtQ (q : ℚ) : String :=
  toString q.num ++ "/" ++ toString q.den

/-- One heuristic check's output, the `{'risk': r, 'reason': s}` dictionary
of `fraud_detector.py`. -/
structure RiskFinding where
  risk : ℚ
  reason : String
deriving DecidableEq

/-- One sector's entry of `FraudDetector.industry_averages`
(`fraud_detector.py` lines 15-21). -/
structure SectorData where
  income_ratio : ℚ
  deduction_ratio : ℚ
deriving DecidableEq

/-- `FraudDetector.industry_averages` (lines 15-21): 0.35 = 7/20,
0.28 = 7/25, 0.42 = 21/50, 0.38 = 19/50, 0.32 = 8/25. -/
def industry_averages : List (String × SectorData) :=
  [("retail", ⟨1, 7/20⟩), ("manufacturing", ⟨1, 7/25⟩), ("services", ⟨1, 21/50⟩),
   ("construction", ⟨1, 19/50⟩), ("agriculture", ⟨1, 8/25⟩)]

/-- `self.industry_averages.get(business_sector, self.industry_averages['services'])`. -/
def sectorData (business_sector : String) : SectorData :=
  (((industry_averages.find? (fun p => p.1 == business_sector)).map Prod.snd)).getD ⟨1, 21/50⟩

/-- `FraudDetector._check_industry_deviation` (lines 133-149); the looked-up
sector data is unused by the source's logic, only the sector name enters
the message. -/
def check_industry_deviation (income : ℚ) (business_sector : String) : RiskFinding :=
  if income < 10000 then
    { risk := 4/5,
      reason := "Income (ZMW " ++ fmtQ income ++ ") significantly below typical "
        ++ business_sector ++ " business levels" }
  else if income < 25000 then
    { risk := 2/5, reason := "Income below average for " ++ business_sector ++ " sector" }
  else { risk := 0, reason := "" }

/-- `FraudDetector._check_deduction_ratio` (lines 151-172). -/
def check_deduction_ratio (deduction_ratio : ℚ) (business_sector : String) : RiskFinding :=
  let typical_ratio := (sectorData business_sector).deduction_ratio
  if deduction_ratio > 7/10 then
    { risk := 9/10,
      reason := "Deductions represent " ++ fmtQ deduction_ratio
        ++ " of income (typical: " ++ fmtQ typical_ratio ++ ")" }
  else if deduction_ratio > 1/2 then
    { risk := 3/5,
      reason := "High deduction ratio (" ++ fmtQ deduction_ratio
        ++ ") compared to industry average (" ++ fmtQ typical_ratio ++ ")" }
  else if deduction_ratio > typical_ratio + 1/10 then
    { risk := 3/10,
      reason := "Above average deduction ratio for " ++ business_sector ++ " sector" }
  else { risk := 0, reason := "" }

/-- `FraudDetector._check_historical_consistency` (lines 174-201), over the
already-extracted numeric incomes of the history list; `np.mean` is
sum/length. -/
def check_historical_consistency (current_income : ℚ) (historyIncomes : List ℚ) : RiskFinding :=
  if historyIncomes.isEmpty then { risk := 0, reason := "" }
  else
    let historical_incomes := historyIncomes.filter (fun q => 0 < q)
    if historical_incomes.isEmpty then { risk := 0, reason := "" }
    else
      let avg_historical := historical_incomes.sum / (historical_incomes.length : ℚ)
      if avg_historical > 0 then
        let deviation := |current_income - avg_historical| / avg_historical
        if deviation > 1/2 then
          { risk := 7/10,
            reason := "Income deviates " ++ fmtQ deviation ++ " from historical average" }
        else if deviation > 3/10 then
          { risk := 2/5, reason := "Significant income change from historical pattern" }
        else { risk := 0, reason := "" }
      else { risk := 0, reason := "" }

/-- `is_round_number` (lines 205-206 and 149-150): `num % 1000 == 0 or
num % 5000 == 0`; over `ℚ` divisibility by `m` is `(num / m).den = 1`. -/
def is_round_number (n : ℚ) : Bool :=
  (n / 1000).den == 1 || (n / 5000).den == 1

/-- `FraudDetector._check_round_numbers` (lines 203-225). -/
def check_round_numbers (income deductions taxable_income : ℚ) : RiskFinding :=
  let round_count : ℕ :=
    (if is_round_number income then 1 else 0)
      + (if is_round_number deductions then 1 else 0)
      + (if is_round_number taxable_income then 1 else 0)
  if round_count ≥ 2 then
    { risk := 1/2, reason := "Multiple round numbers suggest estimated figures" }
  else if round_count = 1 then
    { risk := 1/5, reason := "Some figures appear rounded" }
  else { risk := 0, reason := "" }

/-- `FraudDetector._check_filing_timing` (lines 227-241): the empty label is
falsy; markers are case-insensitive substrings.  (The source's `try/except`
cannot fire on a string label.) -/
def check_filing_timing (tax_period : String) : RiskFinding :=
  if tax_period ≠ "" then
    if strContains (pyLower tax_period) "early" || strContains (pyLower tax_period) "delay" then
      { risk := 3/10, reason := "Unusual filing timing pattern" }
    else { risk := 0, reason := "" }
  else { risk := 0, reason := "" }

/-- `FraudDetector._get_risk_level` (lines 243-250). -/
def get_risk_level (risk_score : ℚ) : String :=
  if risk_score ≥ 7/10 then "HIGH"
  else if risk_score ≥ 2/5 then "MEDIUM"
  else "LOW"

/-- `FraudDetector._generate_recommendations` (lines 252-268). -/
def generate_recommendations (risk_level : String) (risk_factors : List String) : String :=
  let recommendation :=
    if risk_level = "LOW" then "Standard processing - no additional review required"
    else if risk_level = "MEDIUM" then "Consider automated verification checks"
    else if risk_level = "HIGH" then "Manual review recommended - request supporting documents"
    else "Review required"
  let recommendation :=
    if risk_factors.any (fun f => strContains (pyLower f) "deduction")
    then recommendation ++ " | Verify deduction documentation" else recommendation
  if risk_factors.any (fun f => strContains (pyLower f) "income")
  then recommendation ++ " | Cross-reference with third-party data" else recommendation

/-- `self.risk_weights` (lines 23-29): 0.3, 0.25, 0.2, 0.15, 0.1. -/
def risk_weights (heuristic : String) : ℚ :=
  if heuristic = "income_deviation" then 3/10
  else if heuristic = "deduction_ratio" then 1/4
  else if heuristic = "historical_inconsistency" then 1/5
  else if heuristic = "round_numbers" then 3/20
  else if heuristic = "unusual_timing" then 1/10
  else 0

/-- The `factors_breakdown` dictionary (lines 112-118). -/
structure Breakdown where
  income_deviation : ℚ
  deduction_ratio : ℚ
  historical_inconsistency : ℚ
  round_numbers : ℚ
  unusual_timing : ℚ
deriving DecidableEq

/-- The `detailed_analysis` value: the full dictionary of lines 108-119 on
success, the `{'error': str(e)}` dictionary (line 130) on the error path. -/
inductive Detailed where
  | ok (deduction_ratio taxable_income : ℚ)
      (industry_comparison : RiskFinding) (breakdown : Breakdown)
  | err (msg : String)
deriving DecidableEq

/-- The dictionary `FraudDetector.analyze` returns (lines 102-120 and
124-131). -/
structure AnalyzeResult where
  score : ℚ
  level : String
  factors : List String
  recommendation : String
  confidence : ℚ
  detailed : Detailed
deriving DecidableEq

/-- The pure part of `FraudDetector.analyze` (lines 56-120), once the
dynamic fields have been extracted as numbers: the five checks, the
weighted accumulation over the positive findings, the clamp, level,
recommendation and confidence. -/
def analyzeCore (income deductions deduction_ratio taxable_income : ℚ)
    (business_sector tax_period : String)
    (histTruthy : Bool) (histIncomes : List ℚ) : AnalyzeResult :=
  let industry_risk := check_industry_deviation income business_sector
  let deduction_risk := check_deduction_ratio deduction_ratio business_sector
  let history_risk := check_historical_consistency income histIncomes
  let round_risk := check_round_numbers income deductions taxable_income
  let timing_risk := check_filing_timing tax_period
  let risk_factors :=
    (if industry_risk.risk > 0 then [industry_risk.reason] else [])
      ++ (if deduction_risk.risk > 0 then [deduction_risk.reason] else [])
      ++ (if histTruthy ∧ history_risk.risk > 0 then [history_risk.reason] else [])
      ++ (if round_risk.risk > 0 then [round_risk.reason] else [])
      ++ (if timing_risk.risk > 0 then [timing_risk.reason] else [])
  let risk_score :=
    (if industry_risk.risk > 0 then industry_risk.risk * risk_weights "income_deviation" else 0)
      + (if deduction_risk.risk > 0 then deduction_risk.risk * risk_weights "deduction_ratio" else 0)
      + (if histTruthy ∧ history_risk.risk > 0 then
          history_risk.risk * risk_weights "historical_inconsistency" else 0)
      + (if round_risk.risk > 0 then round_risk.risk * risk_weights "round_numbers" else 0)
      + (if timing_risk.risk > 0 then timing_risk.risk * risk_weights "unusual_timing" else 0)
  let risk_score := min risk_score 1
  let risk_level := get_risk_level risk_score
  let recommendations := generate_recommendations risk_level risk_factors
  let confidence := max (7/10) (1 - (risk_factors.length : ℚ) * (5/100))
  { score := risk_score, level := risk_level, factors := risk_factors,
    recommendation := recommendations, confidence := confidence,
    detailed := .ok deduction_ratio taxable_income industry_risk
      { income_deviation := industry_risk.risk,
        deduction_ratio := deduction_risk.risk,
        historical_inconsistency := if histTruthy then history_risk.risk else 0,
        round_numbers := round_risk.risk,
        unusual_timing := timing_risk.risk } }

/-- Python truthiness of the optional history argument (`if taxpayer_history:`). -/
def histTruthy : Option (List Filing) → Bool
  | some l => !l.isEmpty
  | none => false

/-- The numeric incomes of the history items, `f.get('income', 0)` each
(lines 180 / 143); a non-numeric entry raises, exactly as the comparison in
the source's list comprehension does. -/
def histNums : Option (List Filing) → Except String (List ℚ)
  | some l => if l.isEmpty then pure [] else l.mapM (fun f => pyNum (f.income.getD (.num 0)))
  | none => pure []

/-- The guarded ratio `deductions / income if income > 0 else 0` — the
identical expression at `fraud_detector.py` line 52 and
`advanced_fraud_detector.py` line 103/133: the comparison `income > 0` is
evaluated first (and may itself raise on a non-number). -/
def safe_deduction_ratio (deductionsV incomeV : PyVal) : Except String ℚ := do
  let incomePos ← pyGT incomeV (.num 0)
  if incomePos then pyDiv deductionsV incomeV else pure 0

/-- The body of `FraudDetector.analyze` inside the `try` (lines 43-120):
field extraction with defaults, the guarded deduction ratio, the taxable
income, then the pure scoring; any `TypeError`/`ZeroDivisionError` of the
dynamic arithmetic is an `Except.error`. -/
def analyzeBody (filing_data : Filing) (taxpayer_history : Option (List Filing)) :
    Except String AnalyzeResult := do
  let incomeV := filing_data.income.getD (.num 0)
  let deductionsV := filing_data.deductions.getD (.num 0)
  let business_sector := pyLower (filing_data.business_sector.getD "services")
  let tax_period := filing_data.tax_period.getD ""
  let deduction_ratio ← safe_deduction_ratio deductionsV incomeV
  let taxable_income ← pySub incomeV deductionsV
  let income ← pyNum incomeV
  let deductions ← pyNum deductionsV
  let histIncomes ← histNums taxpayer_history
  pure (analyzeCore income deductions deduction_ratio taxable_income
    business_sector tax_period (histTruthy taxpayer_history) histIncomes)

/-- `FraudDetector.analyze` (lines 31-131): the `try/except` — on any
internal failure the degraded dictionary of lines 124-131 is returned. -/
def analyze (filing_data : Filing) (taxpayer_history : Option (List Filing)) : AnalyzeResult :=
  match analyzeBody filing_data taxpayer_history with
  | .ok r => r
  | .error e =>
      { score := 0, level := "LOW", factors := ["Analysis error"],
        recommendation := "Manual review required due to analysis error",
        confidence := 0, detailed := .err e }

/-- The 7-slot feature vector of `AdvancedFraudDetector.extract_features`
(`advanced_fraud_detector.py` lines 126-171), fields in the order of
`self.feature_names` (lines 24-27); the first two slots hold the
log-transformed amounts. -/
structure FeatureVector where
  income : ℚ
  deductions : ℚ
  deduction_ratio : ℚ
  income_industry_deviation : ℚ
  historical_income_change : ℚ
  round_number_count : ℚ
  filing_timing_score : ℚ
deriving DecidableEq

/-- The pure part of `extract_features` (lines 135-171), once the amounts
are numbers: `L` is `np.log1p`, kept abstract because it is
transcendental (no claim depends on its values); `prev` is the numeric
incomes of the history. -/
def featuresCore (L : ℚ → ℚ) (income deductions deduction_ratio : ℚ)
    (business_sector : String) (prev : List ℚ) : FeatureVector :=
  let industry_avg : ℚ :=
    if business_sector = "retail" then 50000
    else if business_sector = "services" then 60000
    else if business_sector = "manufacturing" then 70000
    else 50000
  let income_industry_deviation :=
    if industry_avg > 0 then (income - industry_avg) / industry_avg else 0
  let prev_incomes := prev.filter (fun q => 0 < q)
  let historical_income_change :=
    if !prev_incomes.isEmpty then
      (let avg_historical := prev_incomes.sum / (prev_incomes.length : ℚ)
       if avg_historical > 0 then (income - avg_historical) / avg_historical else 0)
    else 0
  let round_number_count : ℚ :=
    (if is_round_number income then 1 else 0)
      + (if is_round_number deductions then 1 else 0)
      + (if is_round_number (income - deductions) then 1 else 0)
  { income := L income, deductions := L deductions,
    deduction_ratio := deduction_ratio,
    income_industry_deviation := income_industry_deviation,
    historical_income_change := historical_income_change,
    round_number_count := round_number_count,
    filing_timing_score := 1/10 }

/-- `AdvancedFraudDetector.extract_features` (lines 126-171): note that
unlike `analyze`, the sector is not lower-cased here, and the timing slot
is the constant `0.1` of line 159 — `tax_period` is never read. -/
def extract_features (L : ℚ → ℚ) (filing_data : Filing)
    (taxpayer_history : Option (List Filing)) : Except String FeatureVector := do
  let incomeV := filing_data.income.getD (.num 0)
  let deductionsV := filing_data.deductions.getD (.num 0)
  let business_sector := filing_data.business_sector.getD "services"
  let deduction_ratio ← safe_deduction_ratio deductionsV incomeV
  let income ← pyNum incomeV
  let prev ← histNums taxpayer_history
  let deductions ← pyNum deductionsV
  pure (featuresCore L income deductions deduction_ratio business_sector prev)

/-- The dictionary `AdvancedFraudDetector.predict` returns (lines 191-196
on success, lines 200-206 on failure); the `'error'` key is present only
on the failure path, modelled by the `Option`. -/
structure PredictResult where
  fraud_probability : ℚ
  prediction : Bool
  feature_importance : List (String × ℚ)
  model_confidence : ℚ
  error : Option String
deriving DecidableEq

/-- The exact degraded result built by `predict`'s `except` branch
(lines 200-206). -/
def predictDegraded (e : String) : PredictResult :=
  { fraud_probability := 0, prediction := false, feature_importance := [],
    model_confidence := 0, error := some e }

/-- The dictionary `ensemble_predict` returns (lines 223-230): exactly six
keys — it has no error/degradation field. -/
structure EnsembleResult where
  ensemble_score : ℚ
  ml_score : ℚ
  rule_based_score : ℚ
  final_prediction : Bool
  ml_confidence : ℚ
  feature_importance : List (String × ℚ)
deriving DecidableEq

/-- `AdvancedFraudDetector.ensemble_predict` (lines 208-230).  The call
`self.predict(filing_data, taxpayer_history)` of line 212 is the
`ml_result` argument (the trained sklearn classifier behind the success
path of `predict` is not part of the repository's code); everything after
that call is embedded verbatim: 70/30 weighting and the 0.6 threshold. -/
def ensemble_predict (ml_result : PredictResult) (rule_based_score : ℚ) : EnsembleResult :=
  let ml_weight : ℚ := 7/10
  let rule_weight : ℚ := 3/10
  let ensemble_score := ml_result.fraud_probability * ml_weight + rule_based_score * rule_weight
  { ensemble_score := ensemble_score,
    ml_score := ml_result.fraud_probability,
    rule_based_score := rule_based_score,
    final_prediction := ensemble_score > 3/5,
    ml_confidence := ml_result.model_confidence,
    feature_importance := ml_result.feature_importance }

/-! ## Theorems about the claims -/

/-- C1: for all valid inputs with estimator probability and rule score in
[0,1], `ensemble_predict` returns `ensemble_score = 0.7 × estimator
probability + 0.3 × rule score` exactly, and its final flag is true iff
`ensemble_score > 0.6`, strictly — at exactly 0.6 the flag is false. -/
theorem ensemble_score_formula_and_threshold (ml_result : PredictResult) (rule_based_score : ℚ)
    (hp0 : 0 ≤ ml_result.fraud_probability) (hp1 : ml_result.fraud_probability ≤ 1)
    (hr0 : 0 ≤ rule_based_score) (hr1 : rule_based_score ≤ 1) :
    (ensemble_predict ml_result rule_based_score).ensemble_score
        = 7/10 * ml_result.fraud_probability + 3/10 * rule_based_score ∧
    ((ensemble_predict ml_result rule_based_score).final_prediction = true ↔
      (ensemble_predict ml_result rule_based_score).ensemble_score > 3/5) ∧
    ((ensemble_predict ml_result rule_based_score).ensemble_score = 3/5 →
      (ensemble_predict ml_result rule_based_score).final_prediction = false) := by
  refine ⟨by simp only [ensemble_predict]; ring, ?_, ?_⟩
  · simp [ensemble_predict]
  · intro hs
    simp only [ensemble_predict] at hs ⊢
    rw [hs]
    decide

/-- A concrete non-degraded estimator result used to instantiate C1. -/
def mlHalf : PredictResult :=
  { fraud_probability := 1/2, prediction := false, feature_importance := [],
    model_confidence := 1/2, error := none }

/-- C1 witness: the theorem instantiated at probability 1/2 and rule score
1/2. -/
theorem ensemble_score_formula_and_threshold_witness :
    (ensemble_predict mlHalf (1/2)).ensemble_score
        = 7/10 * mlHalf.fraud_probability + 3/10 * (1/2 : ℚ) ∧
    ((ensemble_predict mlHalf (1/2)).final_prediction = true ↔
      (ensemble_predict mlHalf (1/2)).ensemble_score > 3/5) ∧
    ((ensemble_predict mlHalf (1/2)).ensemble_score = 3/5 →
      (ensemble_predict mlHalf (1/2)).final_prediction = false) :=
  ensemble_score_formula_and_threshold mlHalf (1/2)
    (by decide) (by decide) (by decide) (by decide)

/-- C2 counterexample: `ensemble_predict` does NOT propagate a degraded
estimator status.  The degraded `predict` output (zero probability, zero
confidence, error marker set — exactly the `except`-branch dictionary of
lines 200-206) yields an ensemble output identical to that of an ordinary,
non-degraded zero-probability prediction: the returned dictionary has no
degradation indicator at all (its six keys, lines 223-230, drop the
`'error'` key). -/
theorem ensemble_drops_error_marker :
    ensemble_predict (predictDegraded "ML prediction error") (1/2)
      = ensemble_predict { fraud_probability := 0, prediction := false,
                           feature_importance := [], model_confidence := 0,
                           error := none } (1/2) := rfl

/-- C2 amended: `ensemble_predict`'s output never depends on the estimator
result's error marker — degraded status is dropped, not propagated; all
that survives of a degraded `predict` is the zeroed `ml_score` and
`ml_confidence` pass-through. -/
theorem ensemble_output_ignores_error_marker (ml_result : PredictResult) (rule_based_score : ℚ) :
    ensemble_predict ml_result rule_based_score
        = ensemble_predict { ml_result with error := none } rule_based_score ∧
    (∀ e, (ensemble_predict (predictDegraded e) rule_based_score).ml_score = 0 ∧
      (ensemble_predict (predictDegraded e) rule_based_score).ml_confidence = 0) :=
  ⟨rfl, fun _ => ⟨rfl, rfl⟩⟩

/-- The filing of the spec's end-to-end scenario 2: income 10000,
deductions 8000, sector "retail", no history. -/
def scenario2Filing : Filing :=
  { income := some (.num 10000), deductions := some (.num 8000),
    business_sector := some "retail", tax_period := none }

/-- C3 counterexample: on income=10000 the income-deviation check does NOT
fire at the very-low tier (the source's test is the strict `income < 10000`,
line 138), so the finding has risk 0.4, not 0.8; the aggregate is 0.42,
nowhere near 1.0, and the level is MEDIUM, not HIGH. -/
theorem scenario2_level_medium_not_high :
    (analyze scenario2Filing none).level = "MEDIUM" ∧
    (analyze scenario2Filing none).level ≠ "HIGH" ∧
    (analyze scenario2Filing none).score = 21/50 ∧
    (check_industry_deviation 10000 "retail").risk = 2/5 ∧
    (check_industry_deviation 10000 "retail").risk ≠ 4/5 := by decide

/-- C3 amended: on the scenario-2 filing, `analyze` emits the
income-deviation finding at the LOW tier (risk 0.4, since 10000 is not
strictly below the 10000 threshold), the deduction-ratio finding at risk
0.9 (ratio 0.8 > 0.7) and a round-number finding at risk 0.5; the weighted
aggregate is 0.4×0.3 + 0.9×0.25 + 0.5×0.15 = 0.42 and the level is
MEDIUM. -/
theorem scenario2_actual_assessment :
    analyze scenario2Filing none =
      { score := 21/50, level := "MEDIUM",
        factors := ["Income below average for retail sector",
          "Deductions represent 4/5 of income (typical: 7/20)",
          "Multiple round numbers suggest estimated figures"],
        recommendation := "Consider automated verification checks | Verify deduction documentation | Cross-reference with third-party data",
        confidence := 17/20,
        detailed := .ok (4/5) 2000
          { risk := 2/5, reason := "Income below average for retail sector" }
          { income_deviation := 2/5, deduction_ratio := 9/10,
            historical_inconsistency := 0, round_numbers := 1/2,
            unusual_timing := 0 } } := by decide

/-- C4: for every aggregate score in [0,1] the derived level is LOW below
0.4, MEDIUM on [0.4, 0.7), HIGH at and above 0.7 — half-open intervals,
lower bound inclusive — with the claim's four boundary values evaluated
concretely. -/
theorem risk_level_boundaries (s : ℚ) (h0 : 0 ≤ s) (h1 : s ≤ 1) :
    ((get_risk_level s = "LOW" ↔ s < 2/5) ∧
     (get_risk_level s = "MEDIUM" ↔ (2/5 ≤ s ∧ s < 7/10)) ∧
     (get_risk_level s = "HIGH" ↔ 7/10 ≤ s)) ∧
    (get_risk_level (3999/10000) = "LOW" ∧ get_risk_level (2/5) = "MEDIUM" ∧
     get_risk_level (6999/10000) = "MEDIUM" ∧ get_risk_level (7/10) = "HIGH") := by
  constructor
  · unfold get_risk_level
    split_ifs with hA hB
    · refine ⟨?_, ?_, ?_⟩
      · exact ⟨fun hh => absurd hh (by decide), fun hh => (show False by linarith).elim⟩
      · exact ⟨fun hh => absurd hh (by decide), fun hh => (show False by linarith [hh.2]).elim⟩
      · exact ⟨fun _ => hA, fun _ => rfl⟩
    · refine ⟨?_, ?_, ?_⟩
      · exact ⟨fun hh => absurd hh (by decide), fun hh => (show False by linarith).elim⟩
      · exact ⟨fun _ => ⟨hB, not_le.mp hA⟩, fun _ => rfl⟩
      · exact ⟨fun hh => absurd hh (by decide), fun hh => absurd hh hA⟩
    · refine ⟨?_, ?_, ?_⟩
      · exact ⟨fun _ => not_le.mp hB, fun _ => rfl⟩
      · exact ⟨fun hh => absurd hh (by decide), fun hh => absurd hh.1 hB⟩
      · exact ⟨fun hh => absurd hh (by decide), fun hh => absurd hh hA⟩
  · exact ⟨by decide, by decide, by decide, by decide⟩

/-- C4 witness: the boundary theorem instantiated at the concrete score
1/2. -/
theorem risk_level_boundaries_witness :
    ((get_risk_level (1/2) = "LOW" ↔ (1/2 : ℚ) < 2/5) ∧
     (get_risk_level (1/2) = "MEDIUM" ↔ ((2/5 : ℚ) ≤ 1/2 ∧ (1/2 : ℚ) < 7/10)) ∧
     (get_risk_level (1/2) = "HIGH" ↔ (7/10 : ℚ) ≤ 1/2)) ∧
    (get_risk_level (3999/10000) = "LOW" ∧ get_risk_level (2/5) = "MEDIUM" ∧
     get_risk_level (6999/10000) = "MEDIUM" ∧ get_risk_level (7/10) = "HIGH") :=
  risk_level_boundaries (1/2) (by norm_num) (by norm_num)

/-- C9: the feature extractor is a deterministic pure function of its
declared inputs — two calls on identical filing and history (and the same
log transform) return identical feature vectors. -/
theorem extract_features_deterministic (L : ℚ → ℚ) (d1 d2 : Filing)
    (h1 h2 : Option (List Filing)) (hd : d1 = d2) (hh : h1 = h2) :
    extract_features L d1 h1 = extract_features L d2 h2 := by
  rw [hd, hh]

/-- C9 witness: determinism instantiated at a concrete filing. -/
theorem extract_features_deterministic_witness :
    extract_features (fun q => q)
        { income := some (.num 50000), deductions := some (.num 15000),
          business_sector := some "services", tax_period := some "2024" } none
      = extract_features (fun q => q)
        { income := some (.num 50000), deductions := some (.num 15000),
          business_sector := some "services", tax_period := some "2024" } none :=
  extract_features_deterministic (fun q => q) _ _ none none rfl rfl

/-- Destructuring a successful `Except` bind: the first step succeeded and
the continuation succeeded on its result. -/
theorem bind_ok_elim {α β : Type} {x : Except String α} {g : α → Except String β} {b : β}
    (hx : x >>= g = Except.ok b) : ∃ a, x = Except.ok a ∧ g a = Except.ok b := by
  cases x with
  | error e => simp [Bind.bind, Except.bind] at hx
  | ok a => exact ⟨a, rfl, by simpa [Bind.bind, Except.bind] using hx⟩

/-- Every successful run of `analyzeBody` is `analyzeCore` applied to the
extracted numeric fields. -/
theorem analyzeBody_ok_shape (f : Filing) (h : Option (List Filing)) (r : AnalyzeResult)
    (hr : analyzeBody f h = Except.ok r) :
    ∃ income deductions deduction_ratio taxable_income histIncomes,
      r = analyzeCore income deductions deduction_ratio taxable_income
        (pyLower (f.business_sector.getD "services")) (f.tax_period.getD "")
        (histTruthy h) histIncomes := by
  simp only [analyzeBody] at hr
  obtain ⟨dr, _, hr⟩ := bind_ok_elim hr
  obtain ⟨ti, _, hr⟩ := bind_ok_elim hr
  obtain ⟨inc, _, hr⟩ := bind_ok_elim hr
  obtain ⟨ded, _, hr⟩ := bind_ok_elim hr
  obtain ⟨hi, _, hr⟩ := bind_ok_elim hr
  simp only [pure, Except.pure, Except.ok.injEq] at hr
  exact ⟨inc, ded, dr, ti, hi, hr.symm⟩

/-- The rule analyzer appends at most one factor per heuristic, so at most
five in total. -/
theorem analyzeCore_factors_length (income deductions dr ti : ℚ) (bs tp : String)
    (ht : Bool) (hi : List ℚ) :
    (analyzeCore income deductions dr ti bs tp ht hi).factors.length ≤ 5 := by
  simp only [analyzeCore]
  split_ifs <;> simp

/-- On the success path the confidence is the non-floored arm of the `max`:
`1 − 0.05 × factor count`. -/
theorem analyzeCore_confidence_eq (income deductions dr ti : ℚ) (bs tp : String)
    (ht : Bool) (hi : List ℚ) :
    (analyzeCore income deductions dr ti bs tp ht hi).confidence
      = 1 - ((analyzeCore income deductions dr ti bs tp ht hi).factors.length : ℚ) * (5/100) := by
  have hlen := analyzeCore_factors_length income deductions dr ti bs tp ht hi
  have hcast : ((analyzeCore income deductions dr ti bs tp ht hi).factors.length : ℚ) ≤ 5 := by
    exact_mod_cast hlen
  have hdef : (analyzeCore income deductions dr ti bs tp ht hi).confidence
      = max (7/10) (1 - ((analyzeCore income deductions dr ti bs tp ht hi).factors.length : ℚ)
          * (5/100)) := rfl
  rw [hdef, max_eq_right (by linarith)]

/-- C10: on every successful (non-error-path) run of the rule analyzer at
most 5 risk factors accumulate, the confidence equals `1 − 0.05 × factor
count` (the 0.7 floor of the `max` is never the selected value), and it
lies in [0.75, 1]. -/
theorem success_confidence_bounds (f : Filing) (h : Option (List Filing)) (r : AnalyzeResult)
    (hr : analyzeBody f h = Except.ok r) :
    r.factors.length ≤ 5 ∧
    r.confidence = 1 - (r.factors.length : ℚ) * (5/100) ∧
    3/4 ≤ r.confidence ∧ r.confidence ≤ 1 := by
  obtain ⟨inc, ded, dr, ti, hi, rfl⟩ := analyzeBody_ok_shape f h r hr
  have hlen := analyzeCore_factors_length inc ded dr ti
    (pyLower (f.business_sector.getD "services")) (f.tax_period.getD "") (histTruthy h) hi
  have hconf := analyzeCore_confidence_eq inc ded dr ti
    (pyLower (f.business_sector.getD "services")) (f.tax_period.getD "") (histTruthy h) hi
  have hcast : ((analyzeCore inc ded dr ti (pyLower (f.business_sector.getD "services"))
      (f.tax_period.getD "") (histTruthy h) hi).factors.length : ℚ) ≤ 5 := by
    exact_mod_cast hlen
  have h0 : (0 : ℚ) ≤ ((analyzeCore inc ded dr ti (pyLower (f.business_sector.getD "services"))
      (f.tax_period.getD "") (histTruthy h) hi).factors.length : ℚ) := Nat.cast_nonneg _
  exact ⟨hlen, hconf, by rw [hconf]; linarith, by rw [hconf]; linarith⟩

/-- The LOW scenario filing: income 50000, deductions 15000, services. -/
def lowFiling : Filing :=
  { income := some (.num 50000), deductions := some (.num 15000),
    business_sector := some "services", tax_period := none }

/-- C10 witness: the confidence bounds at the LOW-scenario filing, whose
analysis succeeds with one factor and confidence 0.95. -/
theorem success_confidence_bounds_witness :
    (analyze lowFiling none).factors.length ≤ 5 ∧
    (analyze lowFiling none).confidence
        = 1 - ((analyze lowFiling none).factors.length : ℚ) * (5/100) ∧
    3/4 ≤ (analyze lowFiling none).confidence ∧ (analyze lowFiling none).confidence ≤ 1 :=
  success_confidence_bounds lowFiling none (analyze lowFiling none) rfl

/-- C8: `analyze` never propagates an exception — whenever its body raises,
it returns the degraded result of lines 124-131: score 0, level LOW,
confidence 0, and the literal manual-review recommendation. -/
theorem analyze_error_path_degraded (f : Filing) (h : Option (List Filing)) (e : String)
    (he : analyzeBody f h = Except.error e) :
    analyze f h = { score := 0, level := "LOW", factors := ["Analysis error"],
                    recommendation := "Manual review required due to analysis error",
                    confidence := 0, detailed := .err e } := by
  simp [analyze, he]

/-- A filing whose income field holds a string: its analysis body raises a
`TypeError` at the `income > 0` comparison of line 52. -/
def badFiling : Filing := { income := some (.str "n/a") }

/-- C8 witness: the degraded result at a concrete raising input. -/
theorem analyze_error_path_degraded_witness :
    analyze badFiling none
      = { score := 0, level := "LOW", factors := ["Analysis error"],
          recommendation := "Manual review required due to analysis error",
          confidence := 0, detailed := .err "TypeError: comparison between str and number" } :=
  analyze_error_path_degraded badFiling none _ rfl

/-- A non-positive numeric income short-circuits the guarded ratio to 0
without the division being evaluated. -/
theorem safe_deduction_ratio_nonpos (dV : PyVal) (q : ℚ) (hq0 : q ≤ 0) :
    safe_deduction_ratio dV (PyVal.num q) = Except.ok 0 := by
  have hd : decide (q > 0) = false := decide_eq_false (not_lt.mpr hq0)
  simp [safe_deduction_ratio, pyGT, hd, Bind.bind, Except.bind, pure, Except.pure]

/-- C6: for a filing whose income is a non-positive number (in particular
income = 0, also when the key is absent), the deduction ratio is 0 in both
the feature extractor and the rule analyzer's detailed analysis — the
division by income is never evaluated, so no undefined value enters the
outputs. -/
theorem zero_income_deduction_ratio_zero (L : ℚ → ℚ) (f : Filing)
    (h : Option (List Filing)) (q : ℚ)
    (hq : f.income.getD (PyVal.num 0) = PyVal.num q) (hq0 : q ≤ 0) :
    (∀ fv, extract_features L f h = Except.ok fv → fv.deduction_ratio = 0) ∧
    (∀ r, analyzeBody f h = Except.ok r →
      ∃ ti ic bd, r.detailed = Detailed.ok 0 ti ic bd) := by
  have hratio : safe_deduction_ratio (f.deductions.getD (PyVal.num 0))
      (f.income.getD (PyVal.num 0)) = Except.ok 0 := by
    rw [hq]; exact safe_deduction_ratio_nonpos _ q hq0
  constructor
  · intro fv hfv
    simp only [extract_features] at hfv
    obtain ⟨dr, hdr, hfv⟩ := bind_ok_elim hfv
    rw [hratio] at hdr
    injection hdr with hdr
    subst hdr
    obtain ⟨inc, _, hfv⟩ := bind_ok_elim hfv
    obtain ⟨prev, _, hfv⟩ := bind_ok_elim hfv
    obtain ⟨ded, _, hfv⟩ := bind_ok_elim hfv
    simp only [pure, Except.pure, Except.ok.injEq] at hfv
    subst hfv
    rfl
  · intro r hr
    simp only [analyzeBody] at hr
    obtain ⟨dr, hdr, hr⟩ := bind_ok_elim hr
    rw [hratio] at hdr
    injection hdr with hdr
    subst hdr
    obtain ⟨ti, _, hr⟩ := bind_ok_elim hr
    obtain ⟨inc, _, hr⟩ := bind_ok_elim hr
    obtain ⟨ded, _, hr⟩ := bind_ok_elim hr
    obtain ⟨hi, _, hr⟩ := bind_ok_elim hr
    simp only [pure, Except.pure, Except.ok.injEq] at hr
    subst hr
    exact ⟨_, _, _, rfl⟩

/-- The zero-income filing instantiating C6. -/
def zeroIncomeFiling : Filing :=
  { income := some (.num 0), deductions := some (.num 1000),
    business_sector := some "retail", tax_period := none }

/-- C6 witness: the zero-income guarantee at a concrete filing with income
0 and positive deductions. -/
theorem zero_income_deduction_ratio_zero_witness :
    (∀ fv, extract_features (fun q => q) zeroIncomeFiling none = Except.ok fv →
      fv.deduction_ratio = 0) ∧
    (∀ r, analyzeBody zeroIncomeFiling none = Except.ok r →
      ∃ ti ic bd, r.detailed = Detailed.ok 0 ti ic bd) :=
  zero_income_deduction_ratio_zero (fun q => q) zeroIncomeFiling none 0 rfl le_rfl

/-- The filing whose opaque `tax_period` label carries the early-submission
marker substring. -/
def earlyFiling : Filing :=
  { income := some (.num 50000), deductions := some (.num 15000),
    business_sector := some "services", tax_period := some "Filed EARLY" }

/-- C5 counterexample: a filing whose `tax_period` contains the "early"
marker (case-insensitively) still gets the constant default 0.1 in the
timing slot of its feature vector — `extract_features` never reads
`tax_period` (line 159 hardcodes 0.1), so the slot is never elevated. -/
theorem timing_slot_not_elevated :
    extract_features (fun q => q) earlyFiling none
      = Except.ok { income := 50000, deductions := 15000, deduction_ratio := 3/10,
                    income_industry_deviation := -1/6, historical_income_change := 0,
                    round_number_count := 3, filing_timing_score := 1/10 } ∧
    strContains (pyLower (earlyFiling.tax_period.getD "")) "early" = true :=
  ⟨rfl, rfl⟩

/-- C5 amended: the timing slot of the feature vector is the constant 0.1
for every filing, whatever `tax_period` holds; the marker-substring
elevation exists only in the rule analyzer's timing check, whose risk is
0.3 exactly when the non-empty label contains "early" or "delay"
case-insensitively, and 0 otherwise. -/
theorem timing_slot_constant_and_rule_timing (L : ℚ → ℚ) (f : Filing)
    (h : Option (List Filing)) (tax_period : String) :
    (∀ fv, extract_features L f h = Except.ok fv → fv.filing_timing_score = 1/10) ∧
    ((check_filing_timing tax_period).risk = 3/10 ↔
      (tax_period ≠ "" ∧ (strContains (pyLower tax_period) "early" = true ∨
        strContains (pyLower tax_period) "delay" = true))) ∧
    ((check_filing_timing tax_period).risk = 0 ↔
      ¬(tax_period ≠ "" ∧ (strContains (pyLower tax_period) "early" = true ∨
        strContains (pyLower tax_period) "delay" = true))) := by
  refine ⟨?_, ?_, ?_⟩
  · intro fv hfv
    simp only [extract_features] at hfv
    obtain ⟨dr, _, hfv⟩ := bind_ok_elim hfv
    obtain ⟨inc, _, hfv⟩ := bind_ok_elim hfv
    obtain ⟨prev, _, hfv⟩ := bind_ok_elim hfv
    obtain ⟨ded, _, hfv⟩ := bind_ok_elim hfv
    simp only [pure, Except.pure, Except.ok.injEq] at hfv
    subst hfv
    rfl
  · unfold check_filing_timing
    split_ifs with h1 h2 <;> dsimp only
    · exact ⟨fun _ => ⟨h1, by simpa using h2⟩, fun _ => rfl⟩
    · constructor
      · exact fun hh => absurd hh (by norm_num)
      · rintro ⟨-, hor⟩
        exact absurd (Bool.or_eq_true _ _ |>.mpr hor) h2
    · constructor
      · exact fun hh => absurd hh (by norm_num)
      · rintro ⟨hne, -⟩
        exact absurd hne h1
  · unfold check_filing_timing
    split_ifs with h1 h2 <;> dsimp only
    · constructor
      · exact fun hh => absurd hh (by norm_num)
      · exact fun hn => absurd ⟨h1, by simpa using h2⟩ hn
    · constructor
      · rintro - ⟨-, hor⟩
        exact absurd (Bool.or_eq_true _ _ |>.mpr hor) h2
      · exact fun _ => rfl
    · constructor
      · rintro - ⟨hne, -⟩
        exact absurd hne h1
      · exact fun _ => rfl

/-- C7: the deduction-ratio check emits exactly the strongest matching tier
and nothing cumulative — risk 0.9 iff ratio > 0.7; 0.6 iff 0.5 < ratio ≤
0.7; 0.3 iff the sector's typical ratio + 0.1 < ratio ≤ 0.5; and 0
otherwise (first match wins in descending severity). -/
theorem deduction_ratio_tiers_exclusive (r : ℚ) (business_sector : String) :
    ((check_deduction_ratio r business_sector).risk = 9/10 ↔ 7/10 < r) ∧
    ((check_deduction_ratio r business_sector).risk = 3/5 ↔ (1/2 < r ∧ r ≤ 7/10)) ∧
    ((check_deduction_ratio r business_sector).risk = 3/10 ↔
      ((sectorData business_sector).deduction_ratio + 1/10 < r ∧ r ≤ 1/2)) ∧
    ((check_deduction_ratio r business_sector).risk = 0 ↔
      (r ≤ 1/2 ∧ r ≤ (sectorData business_sector).deduction_ratio + 1/10)) := by
  simp only [check_deduction_ratio]
  split_ifs with h1 h2 h3 <;> dsimp only <;> refine ⟨?_, ?_, ?_, ?_⟩
  · exact ⟨fun _ => h1, fun _ => rfl⟩
  · exact ⟨fun hh => absurd hh (by norm_num), fun hh => absurd hh.2 (not_le.mpr h1)⟩
  · exact ⟨fun hh => absurd hh (by norm_num),
      fun hh => absurd hh.2 (not_le.mpr (lt_trans (by norm_num) h1))⟩
  · exact ⟨fun hh => absurd hh (by norm_num),
      fun hh => absurd hh.1 (not_le.mpr (lt_trans (by norm_num) h1))⟩
  · exact ⟨fun hh => absurd hh (by norm_num), fun hh => absurd hh h1⟩
  · exact ⟨fun _ => ⟨h2, not_lt.mp h1⟩, fun _ => rfl⟩
  · exact ⟨fun hh => absurd hh (by norm_num), fun hh => absurd hh.2 (not_le.mpr h2)⟩
  · exact ⟨fun hh => absurd hh (by norm_num), fun hh => absurd hh.1 (not_le.mpr h2)⟩
  · exact ⟨fun hh => absurd hh (by norm_num), fun hh => absurd hh h1⟩
  · exact ⟨fun hh => absurd hh (by norm_num), fun hh => absurd hh.1 h2⟩
  · exact ⟨fun _ => ⟨h3, not_lt.mp h2⟩, fun _ => rfl⟩
  · exact ⟨fun hh => absurd hh (by norm_num), fun hh => absurd hh.2 (not_le.mpr h3)⟩
  · exact ⟨fun hh => absurd hh (by norm_num), fun hh => absurd hh h1⟩
  · exact ⟨fun hh => absurd hh (by norm_num), fun hh => absurd hh.1 h2⟩
  · exact ⟨fun hh => absurd hh (by norm_num), fun hh => absurd hh.1 h3⟩
  · exact ⟨fun _ => ⟨not_lt.mp h2, not_lt.mp h3⟩, fun _ => rfl⟩

end ZRA
